import Mathlib

/-!
Verification of the zencrepes reporter command (src/commands/zencrepes.ts).

The development embeds the command's pure computations directly: string
normalization (`prepString`), identity derivation (`getId`, a UUIDv5 over
SHA-1), dependency resolution from an optional version manifest, payload
construction, and HMAC-SHA1 signing.  File reads, report ingestion and the
HTTP transport are external collaborators; their results enter the model as
`Except`/`Option` parameters and their observable actions are recorded in an
effect trace.

Machine integers are modelled as `Nat` with explicit reduction modulo `2^32`
where the SHA-1 compression function overflows.
-/

/-! ### Bytes, hex and UTF-8 helpers -/

/-- Reduce modulo `2^32`, the word size of SHA-1 arithmetic. -/
def w32 (n : Nat) : Nat := n % 4294967296

/-- Rotate a 32-bit word left by `s` bits (for `n < 2^32`, `s ≤ 32`). -/
def rotl32 (n s : Nat) : Nat := w32 (n <<< s) ||| (n >>> (32 - s))

/-- Big-endian byte decomposition of `n` into `k` bytes, most significant first. -/
def beBytes : Nat → Nat → List Nat
  | 0, _ => []
  | k + 1, n => beBytes k (n >>> 8) ++ [n % 256]

/-- Lowercase hexadecimal digit for a value below 16. -/
def hexDigit (n : Nat) : Char :=
  if n < 10 then Char.ofNat (48 + n) else Char.ofNat (87 + n)

/-- Two lowercase hex characters for one byte. -/
def byteHex (b : Nat) : String := String.mk [hexDigit (b / 16), hexDigit (b % 16)]

/-- Lowercase hex string of a byte list. -/
def bytesToHex (bs : List Nat) : String := bs.foldl (fun s b => s ++ byteHex b) ""

/-- Numeric value of one hexadecimal character. -/
def hexVal (c : Char) : Nat :=
  if '0' ≤ c ∧ c ≤ '9' then c.toNat - 48
  else if 'a' ≤ c ∧ c ≤ 'f' then c.toNat - 87
  else if 'A' ≤ c ∧ c ≤ 'F' then c.toNat - 55
  else 0

/-- Bytes of a list of hex characters taken in pairs. -/
def hexPairs : List Char → List Nat
  | c1 :: c2 :: rest => (hexVal c1 * 16 + hexVal c2) :: hexPairs rest
  | _ => []

/-- UTF-8 encoding of one character (code point to 1-4 bytes). -/
def utf8Char (c : Char) : List Nat :=
  let n := c.toNat
  if n < 128 then [n]
  else if n < 2048 then [192 ||| (n >>> 6), 128 ||| (n &&& 63)]
  else if n < 65536 then
    [224 ||| (n >>> 12), 128 ||| ((n >>> 6) &&& 63), 128 ||| (n &&& 63)]
  else
    [240 ||| (n >>> 18), 128 ||| ((n >>> 12) &&& 63),
     128 ||| ((n >>> 6) &&& 63), 128 ||| (n &&& 63)]

/-- UTF-8 encoding of a string as a byte list. -/
def utf8Encode (s : String) : List Nat := s.data.foldr (fun c acc => utf8Char c ++ acc) []

/-! ### SHA-1 -/

/-- SHA-1 padding: append `0x80`, zeros, then the 64-bit big-endian bit length,
so the total length is a multiple of 64 bytes. -/
def sha1Pad (msg : List Nat) : List Nat :=
  let len := msg.length
  let zeros := (64 + 55 - len % 64) % 64
  msg ++ 128 :: List.replicate zeros 0 ++ beBytes 8 (8 * len)

/-- Big-endian 32-bit word `j` of a 64-byte block. -/
def blockWord (block : List Nat) (j : Nat) : Nat :=
  (block.getD (4 * j) 0) <<< 24 ||| (block.getD (4 * j + 1) 0) <<< 16 |||
  (block.getD (4 * j + 2) 0) <<< 8 ||| block.getD (4 * j + 3) 0

/-- The 80-entry SHA-1 message schedule of one block. -/
def sha1Words (block : List Nat) : List Nat :=
  (List.range 80).foldl
    (fun ws i =>
      if i < 16 then ws ++ [blockWord block i]
      else
        ws ++ [rotl32 ((ws.getD (i - 3) 0) ^^^ (ws.getD (i - 8) 0) ^^^
                       (ws.getD (i - 14) 0) ^^^ (ws.getD (i - 16) 0)) 1])
    []

/-- One round of the SHA-1 compression function. -/
def sha1Round (w i : Nat) (st : Nat × Nat × Nat × Nat × Nat) :
    Nat × Nat × Nat × Nat × Nat :=
  let (a, b, c, d, e) := st
  let f :=
    if i < 20 then (b &&& c) ||| ((b ^^^ 4294967295) &&& d)
    else if i < 40 then b ^^^ c ^^^ d
    else if i < 60 then (b &&& c) ||| (b &&& d) ||| (c &&& d)
    else b ^^^ c ^^^ d
  let k :=
    if i < 20 then 1518500249
    else if i < 40 then 1859775393
    else if i < 60 then 2400959708
    else 3395469782
  let temp := w32 (rotl32 a 5 + f + e + k + w)
  (temp, a, rotl32 b 30, c, d)

/-- Process one 64-byte block, updating the five-word chaining state. -/
def sha1Block (h : Nat × Nat × Nat × Nat × Nat) (block : List Nat) :
    Nat × Nat × Nat × Nat × Nat :=
  let ws := sha1Words block
  let (a, b, c, d, e) := (List.range 80).foldl (fun st i => sha1Round (ws.getD i 0) i st) h
  let (h0, h1, h2, h3, h4) := h
  (w32 (h0 + a), w32 (h1 + b), w32 (h2 + c), w32 (h3 + d), w32 (h4 + e))

/-- SHA-1 digest (20 bytes) of a byte list. -/
def sha1 (msg : List Nat) : List Nat :=
  let padded := sha1Pad msg
  let nblocks := padded.length / 64
  let st := (List.range nblocks).foldl
    (fun h i => sha1Block h ((padded.drop (64 * i)).take 64))
    (1732584193, 4023233417, 2562383102, 271733878, 3285377520)
  let (h0, h1, h2, h3, h4) := st
  beBytes 4 h0 ++ beBytes 4 h1 ++ beBytes 4 h2 ++ beBytes 4 h3 ++ beBytes 4 h4

/-! ### HMAC-SHA1 (node `crypto.createHmac('sha1', secret)`) -/

/-- HMAC-SHA1 of `msg` under `key` (RFC 2104, block size 64). -/
def hmacSha1 (key msg : List Nat) : List Nat :=
  let k0 := if key.length > 64 then sha1 key else key
  let k1 := k0 ++ List.replicate (64 - k0.length) 0
  sha1 ((k1.map fun b => b ^^^ 92) ++ sha1 ((k1.map fun b => b ^^^ 54) ++ msg))

/-- Lowercase hex HMAC-SHA1 digest, as `hmac.update(msg).digest('hex')`. -/
def hmacSha1Hex (key msg : List Nat) : String := bytesToHex (hmacSha1 key msg)

/-! ### UUID version 5 (the `uuid` package's `v5`) -/

/-- Bytes of a dashed UUID string. -/
def uuidStringToBytes (s : String) : List Nat :=
  hexPairs (s.data.filter fun c => c ≠ '-')

/-- Name-based UUID v5: SHA-1 of namespace bytes followed by the UTF-8 name,
truncated to 16 bytes with version and variant bits forced, formatted as a
dashed lowercase hex string. -/
def uuidv5 (name : String) (ns : String) : String :=
  let h := sha1 (uuidStringToBytes ns ++ utf8Encode name)
  let b := fun i => h.getD i 0
  let bytes := (List.range 16).map fun i =>
    if i = 6 then (b 6 &&& 15) ||| 80
    else if i = 8 then (b 8 &&& 63) ||| 128
    else b i
  bytesToHex (bytes.take 4) ++ "-" ++ bytesToHex ((bytes.drop 4).take 2) ++ "-" ++
    bytesToHex ((bytes.drop 6).take 2) ++ "-" ++ bytesToHex ((bytes.drop 8).take 2) ++
    "-" ++ bytesToHex (bytes.drop 10)

/-! ### String normalization and identity derivation (zencrepes.ts lines 13-37) -/

/-- Source `prepString`: `s.replace(/[^0-9a-zA-Z]/g, '').toLowerCase()`.
Only ASCII alphanumerics survive the replace, so the subsequent Unicode
`toLowerCase` only ever lowercases ASCII letters. -/
def prepString (s : String) : String :=
  String.mk (((s.data.filter fun c =>
    decide (('0' ≤ c ∧ c ≤ '9') ∨ ('a' ≤ c ∧ c ≤ 'z') ∨ ('A' ≤ c ∧ c ≤ 'Z'))).map
    fun c => if 'A' ≤ c ∧ c ≤ 'Z' then Char.ofNat (c.toNat + 32) else c))

/-- Modelled from the spec and from the uses in zencrepes.ts (the declaring
file src/global.type.ts is not part of the sources): a dependency is a plain
`{name, version}` record. -/
structure ZenCrepesDependency where
  name : String
  version : String
deriving DecidableEq

/-- Lexicographic strict comparison of character lists, the semantics of the
JS `<`/`>` string comparison used by the sort comparator.  (JS compares UTF-16
code units while this compares code points; the two agree on all strings
without supplementary-plane characters.) -/
def strLtB : List Char → List Char → Bool
  | [], [] => false
  | [], _ :: _ => true
  | _ :: _, [] => false
  | c :: cs, d :: ds => if c < d then true else if d < c then false else strLtB cs ds

theorem strLtB_irrefl : ∀ a : List Char, strLtB a a = false
  | [] => rfl
  | c :: cs => by simp [strLtB, strLtB_irrefl cs]

theorem strLtB_asymm : ∀ {a b : List Char}, strLtB a b = true → strLtB b a = false
  | [], [], h => by cases h
  | [], _ :: _, _ => rfl
  | _ :: _, [], h => by cases h
  | c :: cs, d :: ds, h => by
    by_cases hcd : c < d
    · simp [strLtB, lt_asymm hcd, hcd]
    · by_cases hdc : d < c
      · simp [strLtB, hcd, hdc] at h
      · simp only [strLtB, if_neg hcd, if_neg hdc] at h
        simp [strLtB, hcd, hdc, strLtB_asymm h]

theorem strLtB_connex : ∀ {a b : List Char}, strLtB a b = false → strLtB b a = false →
    a = b
  | [], [], _, _ => rfl
  | [], _ :: _, h, _ => by cases h
  | _ :: _, [], _, h => by cases h
  | c :: cs, d :: ds, h1, h2 => by
    by_cases hcd : c < d
    · simp [strLtB, hcd] at h1
    · by_cases hdc : d < c
      · simp [strLtB, hdc, lt_asymm hdc] at h2
      · simp only [strLtB, if_neg hcd, if_neg hdc] at h1 h2
        have hc : c = d := le_antisymm (not_lt.mp hdc) (not_lt.mp hcd)
        rw [hc, strLtB_connex h1 h2]

theorem strLtB_trans : ∀ {a b c : List Char}, strLtB a b = true → strLtB b c = true →
    strLtB a c = true
  | [], _, _ :: _, _, _ => rfl
  | [], _ :: _, [], _, h2 => by cases h2
  | [], [], [], h1, _ => by cases h1
  | _ :: _, [], _, h1, _ => by cases h1
  | _ :: _, _ :: _, [], _, h2 => by cases h2
  | a :: as, b :: bs, c :: cs, h1, h2 => by
    by_cases hab : a < b <;> by_cases hbc : b < c
    · simp [strLtB, hab.trans hbc, lt_asymm (hab.trans hbc)]
    · have hcb : ¬ c < b := fun hh => by simp [strLtB, hbc, hh] at h2
      have hbc' : b = c := le_antisymm (not_lt.mp hcb) (not_lt.mp hbc)
      simp [strLtB, hbc' ▸ hab, lt_asymm (hbc' ▸ hab)]
    · have hba : ¬ b < a := fun hh => by simp [strLtB, hab, hh] at h1
      have hab' : a = b := le_antisymm (not_lt.mp hba) (not_lt.mp hab)
      simp [strLtB, hab' ▸ hbc, lt_asymm (hab' ▸ hbc)]
    · have hba : ¬ b < a := fun hh => by simp [strLtB, hab, hh] at h1
      have hcb : ¬ c < b := fun hh => by simp [strLtB, hbc, hh] at h2
      simp only [strLtB, if_neg hab, if_neg hba] at h1
      simp only [strLtB, if_neg hbc, if_neg hcb] at h2
      have hab' : a = b := le_antisymm (not_lt.mp hba) (not_lt.mp hab)
      have hbc' : b = c := le_antisymm (not_lt.mp hcb) (not_lt.mp hbc)
      subst hab'
      subst hbc'
      simp [strLtB, hab, hba, strLtB_trans h1 h2]

theorem strLtB_not_lt_trans {a b c : List Char} (h1 : strLtB b a = false)
    (h2 : strLtB c b = false) : strLtB c a = false := by
  cases h3 : strLtB c a with
  | false => rfl
  | true =>
    cases h4 : strLtB a b with
    | false =>
      cases h5 : strLtB b a with
      | false => rw [strLtB_connex h4 h5] at h3; rw [h3] at h2; cases h2
      | true => rw [h5] at h1; cases h1
    | true => rw [strLtB_trans h3 h4] at h2; cases h2

/-- The total preorder induced by the comparator passed to
`dependencies.sort`: by `name` (JS `<`/`>` on strings), ties broken by
`version` (zencrepes.ts lines 23-30). -/
def depLE (a b : ZenCrepesDependency) : Prop :=
  strLtB a.name.data b.name.data = true ∨
    (a.name = b.name ∧ strLtB b.version.data a.version.data = false)

instance : DecidableRel depLE := fun _ _ =>
  inferInstanceAs (Decidable (_ ∨ _))

instance : IsTotal ZenCrepesDependency depLE where
  total a b := by
    cases h1 : strLtB a.name.data b.name.data with
    | true => exact Or.inl (Or.inl h1)
    | false =>
      cases h2 : strLtB b.name.data a.name.data with
      | true => exact Or.inr (Or.inl h2)
      | false =>
        have hn : a.name = b.name :=
          congrArg String.mk (strLtB_connex h1 h2)
        cases h3 : strLtB b.version.data a.version.data with
        | false => exact Or.inl (Or.inr ⟨hn, h3⟩)
        | true => exact Or.inr (Or.inr ⟨hn.symm, strLtB_asymm h3⟩)

instance : IsTrans ZenCrepesDependency depLE where
  trans a b c hab hbc := by
    rcases hab with h1 | ⟨h1, v1⟩
    · rcases hbc with h2 | ⟨h2, _⟩
      · exact Or.inl (strLtB_trans h1 h2)
      · exact Or.inl (h2 ▸ h1)
    · rcases hbc with h2 | ⟨h2, v2⟩
      · exact Or.inl (h1 ▸ h2)
      · exact Or.inr ⟨h1.trans h2, strLtB_not_lt_trans v1 v2⟩

instance : IsAntisymm ZenCrepesDependency depLE where
  antisymm a b hab hba := by
    rcases hab with h1 | ⟨h1, v1⟩ <;> rcases hba with h2 | ⟨h2, v2⟩
    · rw [strLtB_asymm h1] at h2; cases h2
    · rw [congrArg String.data h2, strLtB_irrefl] at h1; cases h1
    · rw [congrArg String.data h1, strLtB_irrefl] at h2; cases h2
    · have hn : a.name = b.name := h1
      have hv : a.version = b.version := congrArg String.mk (strLtB_connex v2 v1)
      obtain ⟨an, av⟩ := a
      obtain ⟨bn, bv⟩ := b
      simp only [ZenCrepesDependency.mk.injEq]
      exact ⟨hn, hv⟩

/-- The sorted order produced by `dependencies.sort(comparator)`.  The JS sort
result is sorted for the comparator's total preorder, and since comparator
ties hold only between equal `{name, version}` values the sorted list of
values is unique -- any correct sort, here insertion sort, models it. -/
def sortDeps (l : List ZenCrepesDependency) : List ZenCrepesDependency :=
  List.insertionSort depLE l

/-- The hardcoded namespace constant of getId (zencrepes.ts line 35). -/
def UUID_NAMESPACE : String := "c72d8f12-1818-4cb9-bead-44634c441c11"

/-- Source `getId`: concatenate `prepString` of name and version, then of each
dependency's name and version in sorted order, and derive a v5 UUID in the
fixed namespace.  (In JS the `.sort` happens in place on the argument array;
`getId`'s result only depends on the list of values, modelled here by
`sortDeps`.) -/
def getId (name version : String) (dependencies : List ZenCrepesDependency) : String :=
  let idStr := prepString name ++ prepString version
  let idStr := (sortDeps dependencies).foldl
    (fun s d => s ++ prepString d.name ++ prepString d.version) idStr
  uuidv5 idStr UUID_NAMESPACE

/-! ### Report summary and version manifest types -/

/-- Modelled from the spec (src/utils/ingest is not part of the sources):
the aggregated report summary, used by zencrepes.ts through its `tests`,
`failures` and `time` fields.  JS numbers holding integral counts are
modelled as `Int`; `testsFailed ≤ testsRun` is deliberately NOT assumed. -/
structure ReportSummary where
  tests : Int
  failures : Int
  time : Int
deriving DecidableEq

/-- Modelled from the spec (src/global.type.ts is not part of the sources):
the `jahia` entry of a version manifest. -/
structure JahiaInfo where
  version : String
  build : String
deriving DecidableEq

/-- Modelled from the spec: the `module` entry of a version manifest. -/
structure ModuleInfo where
  version : String
deriving DecidableEq

/-- Modelled from the spec (version manifest JSON read when the
`versionFilepath` flag is set): `{jahia: {version, build}, module: {version},
dependencies: [{name, version}]}`. -/
structure UtilsVersions where
  jahia : JahiaInfo
  module : ModuleInfo
  dependencies : List ZenCrepesDependency
deriving DecidableEq

/-- Modelled from the spec and the uses in zencrepes.ts (declared in
src/global.type.ts, not part of the sources): the event payload. -/
structure ZenCrepesStateNode where
  id : String
  name : String
  version : String
  dependencies : List ZenCrepesDependency
  createdAt : String
  state : String
  url : String
  runTotal : Int
  runSuccess : Int
  runFailure : Int
  runDuration : Int
deriving DecidableEq

/-! ### JSON serialization (`JSON.stringify` on the payload object) -/

/-- Modelled from the JS builtin: `JSON.stringify` escaping of one character
inside a string literal. -/
def jsonEscapeChar (c : Char) : String :=
  if c = '"' then "\\\""
  else if c = '\\' then "\\\\"
  else if c.toNat = 8 then "\\b"
  else if c.toNat = 9 then "\\t"
  else if c.toNat = 10 then "\\n"
  else if c.toNat = 12 then "\\f"
  else if c.toNat = 13 then "\\r"
  else if c.toNat < 32 then "\\u00" ++ byteHex c.toNat
  else String.singleton c

/-- JSON string literal for `s`. -/
def jsonString (s : String) : String :=
  "\"" ++ s.data.foldl (fun acc c => acc ++ jsonEscapeChar c) "" ++ "\""

/-- JSON object for one dependency, fields in declaration order. -/
def jsonDep (d : ZenCrepesDependency) : String :=
  "\x7b\"name\":" ++ jsonString d.name ++ ",\"version\":" ++ jsonString d.version ++ "\x7d"

/-- JSON array of dependencies. -/
def jsonDeps (l : List ZenCrepesDependency) : String :=
  "[" ++ String.intercalate "," (l.map jsonDep) ++ "]"

/-- JSON number for an integral JS number. -/
def jsonInt (i : Int) : String := toString i

/-- Modelled from the JS builtin: `JSON.stringify(zcPayload)`, with the
properties in the insertion order of the object literal at zencrepes.ts
lines 106-118. -/
def jsonStringify (z : ZenCrepesStateNode) : String :=
  "\x7b\"id\":" ++ jsonString z.id ++
  ",\"name\":" ++ jsonString z.name ++
  ",\"version\":" ++ jsonString z.version ++
  ",\"dependencies\":" ++ jsonDeps z.dependencies ++
  ",\"createdAt\":" ++ jsonString z.createdAt ++
  ",\"state\":" ++ jsonString z.state ++
  ",\"url\":" ++ jsonString z.url ++
  ",\"runTotal\":" ++ jsonInt z.runTotal ++
  ",\"runSuccess\":" ++ jsonInt z.runSuccess ++
  ",\"runFailure\":" ++ jsonInt z.runFailure ++
  ",\"runDuration\":" ++ jsonInt z.runDuration ++ "\x7d"

/-! ### The run pipeline (zencrepes.ts lines 88-135) -/

/-- One outbound HTTP POST as issued by the SyncRequestClient call chain. -/
structure PostRequest where
  url : String
  xHubSignature : String
  contentType : String
  body : String
deriving DecidableEq

/-- Observable side effects of a run, in program order: `this.log` writes a
line to standard output, `post` performs the HTTP POST. -/
inductive Effect where
  | log : String → Effect
  | post : PostRequest → Effect
deriving DecidableEq

/-- The stdout lines of a trace, in order. -/
def logsOf : List Effect → List String
  | [] => []
  | .log s :: r => s :: logsOf r
  | .post _ :: r => logsOf r

/-- The POST requests of a trace, in order. -/
def postsOf : List Effect → List PostRequest
  | [] => []
  | .log _ :: r => postsOf r
  | .post p :: r => p :: postsOf r

/-- Modelled from the spec: the body the transport puts on the wire is the
JSON serialization of the event (spec section 4.5: the signature is computed
over the exact bytes placed on the wire, body = the serialized bytes; the
`SyncRequestClient.post(url, zcPayload)` transport itself is an external
collaborator serializing the same unmodified object). -/
def postBody (z : ZenCrepesStateNode) : String := jsonStringify z

/-- Dependency resolution, zencrepes.ts lines 95-103: without a manifest the
explicit dependencies and flag version pass through; with a manifest, push a
synthesized `Jahia` dependency versioned `"{version}-{build}"`, append the
manifest dependencies, and take the manifest's module version. -/
def resolveDeps (deps0 : List ZenCrepesDependency) (flagVersion : String) :
    Option UtilsVersions → List ZenCrepesDependency × String
  | none => (deps0, flagVersion)
  | some v =>
    (deps0 ++ ZenCrepesDependency.mk "Jahia" (v.jahia.version ++ "-" ++ v.jahia.build)
      :: v.dependencies,
     v.module.version)

/-- The payload object literal, zencrepes.ts lines 106-118.  `getId` is called
on the very array stored in the `dependencies` property; JS `Array.sort`
mutates that array in place, so the constructed object carries the sorted
list (`sortDeps dependencies`), while `id` is computed from the same values. -/
def buildPayload (flagName flagVersion elementVersion flagUrl now : String)
    (dependencies : List ZenCrepesDependency) (report : ReportSummary) :
    ZenCrepesStateNode where
  id := getId flagName flagVersion dependencies
  name := flagName
  version := elementVersion
  dependencies := sortDeps dependencies
  createdAt := now
  state := if report.failures = 0 then "PASS" else "FAIL"
  url := flagUrl
  runTotal := report.tests
  runSuccess := report.tests - report.failures
  runFailure := report.failures
  runDuration := report.time

/-- The result of a completed run: the payload, the exact string fed to the
HMAC, the signature header value, and the effect trace. -/
structure RunOutput where
  zcPayload : ZenCrepesStateNode
  signedString : String
  xHubSignature : String
  trace : List Effect
deriving DecidableEq

/-- Signing, logging and dispatch, zencrepes.ts lines 120-134: HMAC-SHA1 of
`JSON.stringify(zcPayload)` keyed by the secret, header `"sha1=" + hex`
(the `Buffer.from(..., 'utf8').toString()` round trip is the identity on
this string), one log line, then one POST. -/
def buildAndSign (secret payloadurl : String) (zc : ZenCrepesStateNode) : RunOutput :=
  let signedString := jsonStringify zc
  let xHubSignature := "sha1=" ++ hmacSha1Hex (utf8Encode secret) (utf8Encode signedString)
  { zcPayload := zc
    signedString := signedString
    xHubSignature := xHubSignature
    trace := [.log (jsonStringify zc),
              .post ⟨payloadurl, xHubSignature, "application/json", postBody zc⟩] }

/-- The whole `run` method, zencrepes.ts lines 88-135, as a function of the
results of its external collaborators: `ingest` is the outcome of
`ingestReport`, `depsParsed` the outcome of `JSON.parse(flags.dependencies)`,
`manifest` is `none` when the `versionFilepath` flag is absent and otherwise
the outcome of reading and parsing the manifest file, and `now` is the
`new Date().toISOString()` timestamp.  A thrown error anywhere aborts the
run before any effect; otherwise the trace is one log followed by one POST. -/
def runZencrepes (payloadurl secret flagName flagVersion flagUrl now : String)
    (depsParsed : Except String (List ZenCrepesDependency))
    (ingest : Except String ReportSummary)
    (manifest : Option (Except String UtilsVersions)) :
    List Effect × Except String RunOutput :=
  match ingest with
  | .error e => ([], .error e)
  | .ok report =>
    match depsParsed with
    | .error e => ([], .error e)
    | .ok deps0 =>
      match manifest with
      | some (.error e) => ([], .error e)
      | none =>
        let rv := resolveDeps deps0 flagVersion none
        let o := buildAndSign secret payloadurl
          (buildPayload flagName flagVersion rv.2 flagUrl now rv.1 report)
        (o.trace, .ok o)
      | some (.ok v) =>
        let rv := resolveDeps deps0 flagVersion (some v)
        let o := buildAndSign secret payloadurl
          (buildPayload flagName flagVersion rv.2 flagUrl now rv.1 report)
        (o.trace, .ok o)

/-! ### Helper lemmas about the dependency sort -/

theorem sortDeps_eq_of_perm {l1 l2 : List ZenCrepesDependency} (h : l1.Perm l2) :
    sortDeps l1 = sortDeps l2 :=
  List.eq_of_perm_of_sorted
    ((List.perm_insertionSort depLE l1).trans (h.trans (List.perm_insertionSort depLE l2).symm))
    (List.sorted_insertionSort depLE l1) (List.sorted_insertionSort depLE l2)

theorem sortDeps_idem (l : List ZenCrepesDependency) : sortDeps (sortDeps l) = sortDeps l :=
  List.eq_of_perm_of_sorted (List.perm_insertionSort depLE (sortDeps l))
    (List.sorted_insertionSort depLE (sortDeps l)) (List.sorted_insertionSort depLE l)

theorem getId_congr_sort (n v : String) (l1 l2 : List ZenCrepesDependency)
    (h : sortDeps l1 = sortDeps l2) : getId n v l1 = getId n v l2 := by
  unfold getId
  rw [h]

/-! ### Sanity checks of the crypto layer against published test vectors -/

set_option maxRecDepth 100000 in
/-- FIPS 180-1 example: SHA-1 of "abc". -/
theorem sha1_vector_abc :
    bytesToHex (sha1 (utf8Encode "abc")) = "a9993e364706816aba3e25717850c26c9cd0d89d" := by
  decide

set_option maxRecDepth 100000 in
/-- Classic HMAC-SHA1 test vector. -/
theorem hmacSha1_vector :
    hmacSha1Hex (utf8Encode "key")
        (utf8Encode "The quick brown fox jumps over the lazy dog") =
      "de7c9b85b8b78aa6bc8a7a36f70a90701c9db4d9" := by
  decide

set_option maxRecDepth 100000 in
/-- UUIDv5 in the code's namespace for the name "jahiasnapshot", matching an
independent implementation of RFC 4122. -/
theorem uuidv5_vector :
    uuidv5 "jahiasnapshot" UUID_NAMESPACE = "afaf8f9c-2ab6-5e3a-a1f0-10e8d428e611" := by
  decide

/-! ### The claims -/

/-- Claim C1: when a version manifest is supplied, the event's `id` is computed
from the caller-supplied version flag together with the merged (post-manifest)
dependency list, the event's `version` field is the manifest's declared module
version, and the manifest's module version never influences the id (replacing
it by any other string leaves the id unchanged). -/
theorem version_asymmetry (payloadurl secret flagName flagVersion flagUrl now : String)
    (deps0 : List ZenCrepesDependency) (report : ReportSummary) (v : UtilsVersions) :
    (((runZencrepes payloadurl secret flagName flagVersion flagUrl now
        (.ok deps0) (.ok report) (some (.ok v))).2.toOption.map
        fun o => o.zcPayload.id) =
      some (getId flagName flagVersion
        (deps0 ++ ZenCrepesDependency.mk "Jahia" (v.jahia.version ++ "-" ++ v.jahia.build)
          :: v.dependencies))) ∧
    (((runZencrepes payloadurl secret flagName flagVersion flagUrl now
        (.ok deps0) (.ok report) (some (.ok v))).2.toOption.map
        fun o => o.zcPayload.version) = some v.module.version) ∧
    ∀ mv : String,
      (((runZencrepes payloadurl secret flagName flagVersion flagUrl now
          (.ok deps0) (.ok report) (some (.ok ⟨v.jahia, ⟨mv⟩, v.dependencies⟩))).2.toOption.map
          fun o => o.zcPayload.id) =
        ((runZencrepes payloadurl secret flagName flagVersion flagUrl now
          (.ok deps0) (.ok report) (some (.ok v))).2.toOption.map
          fun o => o.zcPayload.id)) :=
  ⟨rfl, rfl, fun _ => rfl⟩

/-- Claim C2: identity derivation is order-independent: swapping two supplied
dependencies, and more generally permuting the supplied dependency list in any
way, yields the identical id. -/
theorem getId_order_independence (n v : String) (d1 d2 : ZenCrepesDependency)
    (l1 l2 : List ZenCrepesDependency) (hp : l1.Perm l2) :
    getId n v [d1, d2] = getId n v [d2, d1] ∧ getId n v l1 = getId n v l2 :=
  ⟨getId_congr_sort n v _ _ (sortDeps_eq_of_perm (List.Perm.swap d2 d1 [])),
   getId_congr_sort n v _ _ (sortDeps_eq_of_perm hp)⟩

/-- Witness for C2 at concrete inputs: the permutation hypothesis holds for
the two-element swap and the ids agree. -/
theorem getId_order_independence_witness :
    ([ZenCrepesDependency.mk "a" "1", ZenCrepesDependency.mk "b" "2"]).Perm
      [ZenCrepesDependency.mk "b" "2", ZenCrepesDependency.mk "a" "1"] ∧
    getId "n" "v" [ZenCrepesDependency.mk "a" "1", ZenCrepesDependency.mk "b" "2"] =
      getId "n" "v" [ZenCrepesDependency.mk "b" "2", ZenCrepesDependency.mk "a" "1"] :=
  ⟨List.Perm.swap (ZenCrepesDependency.mk "b" "2") (ZenCrepesDependency.mk "a" "1") [],
   (getId_order_independence "n" "v" (ZenCrepesDependency.mk "a" "1")
      (ZenCrepesDependency.mk "b" "2")
      [ZenCrepesDependency.mk "a" "1", ZenCrepesDependency.mk "b" "2"]
      [ZenCrepesDependency.mk "b" "2", ZenCrepesDependency.mk "a" "1"]
      (List.Perm.swap (ZenCrepesDependency.mk "b" "2") (ZenCrepesDependency.mk "a" "1") [])).2⟩

set_option maxRecDepth 100000 in
/-- Claim C3 counterexample: with dependencies supplied in the order
`[{b,1}, {a,1}]` (and no manifest), the produced event's `dependencies` field
is the sorted list `[{a,1}, {b,1}]`, not the insertion order: `getId` sorts
the caller's array in place (JS `Array.sort`), and the event references that
same array, so the claim that the event preserves insertion order is false. -/
theorem dependencies_insertion_order_counterexample :
    (((runZencrepes "https://z" "s" "Jahia" "1.0" "" "2026-01-01T00:00:00.000Z"
        (.ok [ZenCrepesDependency.mk "b" "1", ZenCrepesDependency.mk "a" "1"])
        (.ok ⟨1, 0, 0⟩) none).2.toOption.map fun o => o.zcPayload.dependencies) ≠
      some [ZenCrepesDependency.mk "b" "1", ZenCrepesDependency.mk "a" "1"]) ∧
    (((runZencrepes "https://z" "s" "Jahia" "1.0" "" "2026-01-01T00:00:00.000Z"
        (.ok [ZenCrepesDependency.mk "b" "1", ZenCrepesDependency.mk "a" "1"])
        (.ok ⟨1, 0, 0⟩) none).2.toOption.map fun o => o.zcPayload.dependencies) =
      some [ZenCrepesDependency.mk "a" "1", ZenCrepesDependency.mk "b" "1"]) := by
  have h : ((runZencrepes "https://z" "s" "Jahia" "1.0" "" "2026-01-01T00:00:00.000Z"
      (.ok [ZenCrepesDependency.mk "b" "1", ZenCrepesDependency.mk "a" "1"])
      (.ok ⟨1, 0, 0⟩) none).2.toOption.map fun o => o.zcPayload.dependencies) =
      some [ZenCrepesDependency.mk "a" "1", ZenCrepesDependency.mk "b" "1"] := rfl
  refine ⟨?_, h⟩
  rw [h]
  decide

/-- Claim C3 as amended: the sort inside `getId` happens in place on the very
array the event carries, so for every run that completes the event's
`dependencies` field is the `(name, version)`-sorted version of the effective
dependency list, not the order in which dependencies were supplied. -/
theorem dependencies_sorted_in_event
    (payloadurl secret flagName flagVersion flagUrl now : String)
    (deps0 : List ZenCrepesDependency) (report : ReportSummary)
    (manifest : Option UtilsVersions) :
    ((runZencrepes payloadurl secret flagName flagVersion flagUrl now
        (.ok deps0) (.ok report) (manifest.map Except.ok)).2.toOption.map
        fun o => o.zcPayload.dependencies) =
      some (sortDeps (resolveDeps deps0 flagVersion manifest).1) := by
  cases manifest <;> rfl

/-- Claim C4: the `x-hub-signature` header of the one POST is the literal
string `sha1=` followed by the lowercase hex HMAC-SHA1 digest, keyed by the
secret, of exactly the bytes transmitted as the POST body. -/
theorem signature_over_wire_bytes (secret payloadurl : String) (zc : ZenCrepesStateNode) :
    postsOf (buildAndSign secret payloadurl zc).trace =
      [⟨payloadurl, (buildAndSign secret payloadurl zc).xHubSignature,
        "application/json", postBody zc⟩] ∧
    (buildAndSign secret payloadurl zc).xHubSignature =
      "sha1=" ++ hmacSha1Hex (utf8Encode secret) (utf8Encode (postBody zc)) :=
  ⟨rfl, rfl⟩

/-- Claim C5: normalization strips every character that is not an ASCII letter
or digit and lower-cases the rest, so `"My-Mod"` and `"1.0.0"` normalize to
`"mymod"` and `"100"`, and the distinct inputs produce the same id. -/
theorem normalization_insensitivity :
    prepString "My-Mod" = "mymod" ∧ prepString "1.0.0" = "100" ∧
    getId "My-Mod" "1.0.0" [] = getId "mymod" "100" [] := by
  refine ⟨by decide, by decide, ?_⟩
  show uuidv5 (prepString "My-Mod" ++ prepString "1.0.0") UUID_NAMESPACE =
    uuidv5 (prepString "mymod" ++ prepString "100") UUID_NAMESPACE
  have h : prepString "My-Mod" ++ prepString "1.0.0" =
      prepString "mymod" ++ prepString "100" := by decide
  rw [h]

/-- Claim C6: the event's state is `"PASS"` exactly when `failures = 0` and
`"FAIL"` otherwise, and `runSuccess = tests - failures`; this also holds when
`failures` exceeds `tests` (the invariant is not enforced), e.g. a summary
with 5 tests and 7 failures yields state `"FAIL"` and `runSuccess = -2`. -/
theorem state_derivation (flagName flagVersion elementVersion flagUrl now : String)
    (deps : List ZenCrepesDependency) (report : ReportSummary) :
    ((buildPayload flagName flagVersion elementVersion flagUrl now deps report).state = "PASS"
      ↔ report.failures = 0) ∧
    (buildPayload flagName flagVersion elementVersion flagUrl now deps report).state =
      (if report.failures = 0 then "PASS" else "FAIL") ∧
    (buildPayload flagName flagVersion elementVersion flagUrl now deps report).runSuccess =
      report.tests - report.failures ∧
    (buildPayload flagName flagVersion elementVersion flagUrl now deps ⟨5, 7, 0⟩).state =
      "FAIL" ∧
    (buildPayload flagName flagVersion elementVersion flagUrl now deps ⟨5, 7, 0⟩).runSuccess =
      -2 := by
  refine ⟨?_, rfl, rfl, rfl, rfl⟩
  simp only [buildPayload]
  split
  · simp_all
  · simp_all

/-- Claim C7: without a manifest the effective version and dependency list are
the explicit flag values unchanged; with a manifest the effective list is the
explicit dependencies, then one synthesized `Jahia` dependency versioned
`"{version}-{build}"` from the manifest, then all manifest dependencies, in
that concatenation order, and the effective version is the manifest's module
version. -/
theorem dependency_resolution (deps0 : List ZenCrepesDependency) (flagVersion : String)
    (v : UtilsVersions) :
    resolveDeps deps0 flagVersion none = (deps0, flagVersion) ∧
    resolveDeps deps0 flagVersion (some v) =
      (deps0 ++
        [ZenCrepesDependency.mk "Jahia" (v.jahia.version ++ "-" ++ v.jahia.build)] ++
        v.dependencies,
       v.module.version) := by
  refine ⟨rfl, ?_⟩
  simp [resolveDeps]

/-- Claim C8: identity derivation is deterministic: the same arguments give
the same id, and in particular re-running `getId` on the list already mutated
(sorted in place) by a first call still yields the same id. -/
theorem getId_determinism (n v : String) (deps : List ZenCrepesDependency) :
    getId n v deps = getId n v deps ∧ getId n v (sortDeps deps) = getId n v deps :=
  ⟨rfl, getId_congr_sort n v _ _ (sortDeps_idem deps)⟩

/-- Claim C9: each invocation either aborts on a report-ingestion,
dependency-parse or manifest error with an empty effect trace (no network
I/O, nothing logged), or completes and attempts exactly one POST; the trace
never contains more than one POST. -/
theorem no_partial_success (payloadurl secret flagName flagVersion flagUrl now : String)
    (depsParsed : Except String (List ZenCrepesDependency))
    (ingest : Except String ReportSummary)
    (manifest : Option (Except String UtilsVersions)) :
    (postsOf (runZencrepes payloadurl secret flagName flagVersion flagUrl now
        depsParsed ingest manifest).1).length =
      (if ((runZencrepes payloadurl secret flagName flagVersion flagUrl now
        depsParsed ingest manifest).2.toOption).isSome then 1 else 0) ∧
    (postsOf (runZencrepes payloadurl secret flagName flagVersion flagUrl now
        depsParsed ingest manifest).1).length ≤ 1 ∧
    ((runZencrepes payloadurl secret flagName flagVersion flagUrl now
        depsParsed ingest manifest).1.length =
      (if ((runZencrepes payloadurl secret flagName flagVersion flagUrl now
        depsParsed ingest manifest).2.toOption).isSome then 2 else 0)) := by
  rcases ingest with e | report
  · exact ⟨rfl, Nat.zero_le 1, rfl⟩
  rcases depsParsed with e2 | deps0
  · exact ⟨rfl, Nat.zero_le 1, rfl⟩
  rcases manifest with _ | m
  · exact ⟨rfl, Nat.le_refl 1, rfl⟩
  rcases m with e3 | v
  · exact ⟨rfl, Nat.zero_le 1, rfl⟩
  · exact ⟨rfl, Nat.le_refl 1, rfl⟩

/-- Claim C10: the JSON text written to standard output is character for
character the string over which the HMAC-SHA1 signature was computed -- both
are the serialization of the same event object. -/
theorem logged_matches_signed (secret payloadurl : String) (zc : ZenCrepesStateNode) :
    logsOf (buildAndSign secret payloadurl zc).trace =
      [(buildAndSign secret payloadurl zc).signedString] ∧
    (buildAndSign secret payloadurl zc).signedString = jsonStringify zc :=
  ⟨rfl, rfl⟩

set_option maxRecDepth 1000000 in
/-- End-to-end identity vector: `getId "Jahia" "SNAPSHOT" []` concatenates to
`"jahiasnapshot"` and matches an independent RFC 4122 v5 computation. -/
theorem getId_vector :
    getId "Jahia" "SNAPSHOT" [] = "afaf8f9c-2ab6-5e3a-a1f0-10e8d428e611" := by
  decide

set_option maxRecDepth 1000000 in
set_option maxHeartbeats 1000000 in
/-- End-to-end signing vector: the serialized payload and its HMAC-SHA1 header
under secret `"abc"` match values computed with an independent JSON and HMAC
implementation. -/
theorem buildAndSign_vector :
    (buildAndSign "abc" "https://z"
        (ZenCrepesStateNode.mk "someid" "Jahia" "1.2"
          [ZenCrepesDependency.mk "a" "1"] "2026-01-01T00:00:00.000Z" "PASS"
          "https://u" 5 5 0 12)).xHubSignature =
      "sha1=846f2ee481a863a94a6409be5fe2e46a1192af00" := by
  decide
